import Mathlib

/-!
Verification of the OAuth2 helper module `vimeo/auth.py`.

The module has three functions:
  * `get_auth_url`            — pure construction of the authorization URL;
  * `get_access_token`        — POST to `{api_root}/oauth/access_token`, then
                                parse `access_token` from the JSON body;
  * `get_client_credentials`  — POST to `{api_root}/oauth/authorize/client`,
                                then parse `access_token` from the JSON body.

The HTTP collaborator (`tornado.httpclient.HTTPClient().fetch`) is modelled as
a function `HttpRequest → HttpResponse` passed in explicitly; each embedded
function also returns the list of requests it issued, so that "makes no
network call" and "the single outgoing request is …" are statable.

Python exceptions are modelled by `PyExc`; the code only ever raises
`ValueError` (directly) and `KeyError` (from a dict subscript on a missing
key), so those are the constructors.
-/

namespace VimeoAuth

/-- The single-quote character, written via its code point. -/
def sq : String := (Char.ofNat 39).toString

/-- The Python exceptions that the module can raise.  `valueError` is raised
explicitly by all three functions; `keyError` arises from the subscript
the subscript on the dict parsed from the body when the key is absent. -/
inductive PyExc where
  | valueError (msg : String)
  | keyError (key : String)
deriving DecidableEq, Repr

/-- A Python value as it appears in the request payload dictionaries: either a
string, or (for `get_client_credentials`, which stores the scope *list* into
the payload) a list of strings. -/
inductive PyVal where
  | str (s : String)
  | list (xs : List String)
deriving DecidableEq, Repr

/-- Python `repr` of a list of (simple, escape-free) strings, as produced by
the `%s` format of a list: `[.interact., .private., ...]` with single quotes
around each element. -/
def pyListRepr (xs : List String) : String :=
  "[" ++ String.intercalate ", " (xs.map (fun s => sq ++ s ++ sq)) ++ "]"

/-- Python `str()` of a payload value: strings unchanged, lists via `repr`. -/
def pyStr : PyVal → String
  | .str s => s
  | .list xs => pyListRepr xs

/-- Hex digit characters used by `urllib.quote_plus` percent-escapes. -/
def hexDigit (n : Nat) : Char := "0123456789ABCDEF".toList.getD n (Char.ofNat 48)

/-- One byte of Python 2 `urllib.quote_plus`: alphanumerics and `_ . -` pass
through, a space becomes `+`, every other byte becomes `%XX`. -/
def quotePlusByte (b : Nat) : List Char :=
  let c := Char.ofNat b
  if c.isAlphanum || c = Char.ofNat 95 || c = Char.ofNat 46 || c = Char.ofNat 45 then [c]
  else if b = 32 then [Char.ofNat 43]
  else [Char.ofNat 37, hexDigit (b / 16), hexDigit (b % 16)]

/-- The bytes of a Python 2 (ASCII) byte string, one per character. -/
def strBytes (s : String) : List Nat := s.data.map (fun c => c.toNat)

/-- Python 2 `urllib.quote_plus` on an ASCII byte string. -/
def quote_plus (s : String) : String :=
  String.mk ((strBytes s).map quotePlusByte).flatten

/-- Python 2 `urllib.urlencode` over an association list of payload entries:
`quote_plus(str(k)) + .=. + quote_plus(str(v))` joined by `&`. -/
def urlencode (pairs : List (String × PyVal)) : String :=
  String.intercalate "&" (pairs.map (fun p => quote_plus p.1 ++ "=" ++ quote_plus (pyStr p.2)))

/-- The base64 alphabet. -/
def b64alphabet : List Char :=
  "ABCDEFGHIJKLMNOPQRSTUVWXYZabcdefghijklmnopqrstuvwxyz0123456789+/".toList

/-- Character `n` of the base64 alphabet. -/
def b64char (n : Nat) : Char := b64alphabet.getD n (Char.ofNat 65)

/-- Base64 of a byte list, three bytes at a time, `=`-padded. -/
def b64chunks : List Nat → List Char
  | [] => []
  | [a] => [b64char (a / 4), b64char ((a % 4) * 16), Char.ofNat 61, Char.ofNat 61]
  | [a, b] => [b64char (a / 4), b64char ((a % 4) * 16 + b / 16),
               b64char ((b % 16) * 4), Char.ofNat 61]
  | a :: b :: c :: rest =>
      b64char (a / 4) :: b64char ((a % 4) * 16 + b / 16) ::
      b64char ((b % 16) * 4 + c / 64) :: b64char (c % 64) :: b64chunks rest

/-- Python `base64.b64encode` on an ASCII byte string. -/
def b64encode (s : String) : String :=
  String.mk (b64chunks (strBytes s))

/-- An outgoing request to the HTTP collaborator
`fetch(url, method, headers, body, validate_cert)`.  `validateCert = none`
models a call that passes no `validate_cert` argument. -/
structure HttpRequest where
  url : String
  method : String
  headers : List (String × String)
  body : String
  validateCert : Option Bool
deriving DecidableEq, Repr

/-- The collaborator's response: `error` (none on success) and `body`. -/
structure HttpResponse where
  error : Option String
  body : String
deriving DecidableEq, Repr

instance {ε α : Type} [DecidableEq ε] [DecidableEq α] : DecidableEq (Except ε α) :=
  fun a b =>
    match a, b with
    | .ok x, .ok y => decidable_of_iff (x = y) (by simp)
    | .error x, .error y => decidable_of_iff (x = y) (by simp)
    | .ok _, .error _ => isFalse (by simp)
    | .error _, .ok _ => isFalse (by simp)

/-- `s` has `t` as a (contiguous) substring. -/
def strContains (s t : String) : Prop := t.data <:+: s.data

instance (s t : String) : Decidable (strContains s t) :=
  inferInstanceAs (Decidable (t.data <:+: s.data))

theorem strContains_trans {t m s : String} (h1 : strContains m t) (h2 : strContains s m) :
    strContains s t := by
  obtain ⟨u, v, hv⟩ := h1
  obtain ⟨w, x, hx⟩ := h2
  refine ⟨w ++ u, v ++ x, ?_⟩
  rw [← hx, ← hv]
  simp [List.append_assoc]

/-- JSON insignificant whitespace. -/
def isJsonWs (c : Char) : Bool :=
  c = Char.ofNat 32 || c = Char.ofNat 9 || c = Char.ofNat 10 || c = Char.ofNat 13

/-- Drop leading JSON whitespace. -/
def skipWs : List Char → List Char
  | [] => []
  | c :: rest => if isJsonWs c then skipWs rest else c :: rest

/-- The character named by a JSON single-character escape, if legal. -/
def unescapeChar (c : Char) : Option Char :=
  if c = Char.ofNat 34 then some (Char.ofNat 34)
  else if c = Char.ofNat 92 then some (Char.ofNat 92)
  else if c = Char.ofNat 47 then some (Char.ofNat 47)
  else if c = Char.ofNat 98 then some (Char.ofNat 8)
  else if c = Char.ofNat 102 then some (Char.ofNat 12)
  else if c = Char.ofNat 110 then some (Char.ofNat 10)
  else if c = Char.ofNat 114 then some (Char.ofNat 13)
  else if c = Char.ofNat 116 then some (Char.ofNat 9)
  else none

/-- Read the characters of a JSON string after its opening quote; returns the
unescaped characters and the rest of the input after the closing quote. -/
def parseStrChars : List Char → Option (List Char × List Char)
  | [] => none
  | c :: rest =>
    if c = Char.ofNat 34 then some ([], rest)
    else if c = Char.ofNat 92 then
      match rest with
      | [] => none
      | e :: rest2 =>
        match unescapeChar e with
        | none => none
        | some u =>
          match parseStrChars rest2 with
          | none => none
          | some (cs, rem) => some (u :: cs, rem)
    else
      match parseStrChars rest with
      | none => none
      | some (cs, rem) => some (c :: cs, rem)

/-- Read the members of a JSON object (after its opening brace, object known
non-empty): `"key" : "value"` pairs separated by commas, consuming the
closing brace.  Fuelled recursion; `json_loads` passes ample fuel. -/
def parseMembers : Nat → List Char → Option (List (String × String) × List Char)
  | 0, _ => none
  | fuel+1, input =>
    match skipWs input with
    | [] => none
    | c :: rest =>
      if c = Char.ofNat 34 then
        match parseStrChars rest with
        | none => none
        | some (key, rem1) =>
          match skipWs rem1 with
          | [] => none
          | c2 :: rem2 =>
            if c2 = Char.ofNat 58 then
              match skipWs rem2 with
              | [] => none
              | c3 :: rem3 =>
                if c3 = Char.ofNat 34 then
                  match parseStrChars rem3 with
                  | none => none
                  | some (val, rem4) =>
                    match skipWs rem4 with
                    | [] => none
                    | c5 :: rem5 =>
                      if c5 = Char.ofNat 44 then
                        match parseMembers fuel rem5 with
                        | none => none
                        | some (pairs, rem6) =>
                            some ((String.mk key, String.mk val) :: pairs, rem6)
                      else if c5 = Char.ofNat 125 then
                        some ([(String.mk key, String.mk val)], rem5)
                      else none
                else none
            else none
      else none

/-- CPython 2 `json` decode failure. -/
def jsonDecodeErr : PyExc := .valueError "No JSON object could be decoded"

/-- Models the external Python 2 `json.loads` library call on the subset of
JSON this module handles: a top-level object whose values are strings
(`\x7b"access_token": "..."\x7d` and the like).  Any body that is not such an
object is a decode failure, raised as the CPython 2 `ValueError`. -/
def json_loads (s : String) : Except PyExc (List (String × String)) :=
  match skipWs s.data with
  | [] => .error jsonDecodeErr
  | c :: rest =>
    if c = Char.ofNat 123 then
      match skipWs rest with
      | [] => .error jsonDecodeErr
      | c2 :: rest2 =>
        if c2 = Char.ofNat 125 then
          if (skipWs rest2).isEmpty then .ok [] else .error jsonDecodeErr
        else
          match parseMembers (s.length + 1) rest with
          | some (pairs, rem) =>
              if (skipWs rem).isEmpty then .ok pairs else .error jsonDecodeErr
          | none => .error jsonDecodeErr
    else .error jsonDecodeErr

/-- A Python dict subscript `obj[key]` on the dict built from the parsed
members (later duplicates overwrite earlier ones): the value, or `KeyError`. -/
def dictSubscript (obj : List (String × String)) (key : String) : Except PyExc String :=
  match obj.reverse.lookup key with
  | some v => .ok v
  | none => .error (.keyError key)

/-- The fixed enumerated scope set of `get_auth_url`. -/
def choices : List String :=
  ["interact", "private", "public", "create", "edit", "delete", "upload"]

/-- The message of the `ValueError` raised on an unrecognized scope. -/
def scopeErrMsg (scope : String) : String :=
  "Scope must be one of " ++ pyListRepr choices ++ " (found scope " ++ sq ++ scope ++ sq ++ ")"

/-- The scope loop of `get_auth_url`: append each scope followed by `+` to the
URL built so far, failing with `ValueError` at the first scope outside
`choices`. -/
def appendScopes (base : String) : List String → Except PyExc String
  | [] => .ok base
  | s :: rest =>
      if s ∈ choices then appendScopes (base ++ s ++ "+") rest
      else .error (.valueError (scopeErrMsg s))

/-- `get_auth_url(api_root, cid, scopes, redirect)`.  The first component is
the list of HTTP requests issued (none: the function performs no I/O). -/
def get_auth_url (api_root cid : String) (scopes : List String) (redirect : String) :
    List HttpRequest × Except PyExc String :=
  let auth_url := api_root ++ "/oauth/authorize?response_type=code&client_id=" ++ cid ++ "&scope="
  let scopes1 := if scopes.isEmpty then choices else scopes
  ([],
    match appendScopes auth_url scopes1 with
    | .error e => .error e
    | .ok u => .ok (u ++ "&redirect_uri=" ++ redirect))

/-- The versioned `Accept` header value both token functions send. -/
def acceptHeader : String := "application/vnd.vimeo.*+json; version=3.2"

/-- `get_access_token(auth_code, cid, secret, redirect, api_root)` with the
HTTP collaborator passed in.  Returns the issued requests and the result:
the token, or the `ValueError` wrapping `response.error`, or the exception
from `json.loads(response.body)["access_token"]`. -/
def get_access_token (fetch : HttpRequest → HttpResponse)
    (auth_code cid secret redirect api_root : String) :
    List HttpRequest × Except PyExc String :=
  let encoded := b64encode (cid ++ ":" ++ secret)
  let payload : List (String × PyVal) :=
    [("grant_type", .str "authorization_code"), ("code", .str auth_code),
     ("redirect_uri", .str redirect)]
  let headers := [("Accept", acceptHeader), ("Authorization", "Basic " ++ encoded)]
  let req : HttpRequest :=
    { url := api_root ++ "/oauth/access_token", method := "POST", headers := headers,
      body := urlencode payload, validateCert := some true }
  let response := fetch req
  ([req],
    match response.error with
    | some err => .error (.valueError err)
    | none =>
        match json_loads response.body with
        | .error ex => .error ex
        | .ok obj => dictSubscript obj "access_token")

/-- `get_client_credentials(client_id, client_secret, scopes, api_root)` with
the HTTP collaborator passed in.  `scopes = none` models the `None` default;
the `scope` payload entry is added only when `scopes` is truthy (non-`None`
and non-empty), and it stores the Python *list* itself.  The `fetch` call
passes no `validate_cert` argument. -/
def get_client_credentials (fetch : HttpRequest → HttpResponse)
    (client_id client_secret : String) (scopes : Option (List String)) (api_root : String) :
    List HttpRequest × Except PyExc String :=
  let basic_auth := b64encode (client_id ++ ":" ++ client_secret)
  let payload0 : List (String × PyVal) := [("grant_type", .str "client_credentials")]
  let headers := [("Accept", acceptHeader), ("Authorization", "Basic " ++ basic_auth)]
  let payload :=
    match scopes with
    | none => payload0
    | some ss => if ss.isEmpty then payload0 else payload0 ++ [("scope", .list ss)]
  let req : HttpRequest :=
    { url := api_root ++ "/oauth/authorize/client", method := "POST", headers := headers,
      body := urlencode payload, validateCert := none }
  let response := fetch req
  ([req],
    match response.error with
    | some err => .error (.valueError err)
    | none =>
        match json_loads response.body with
        | .error ex => .error ex
        | .ok obj => dictSubscript obj "access_token")

/-- The concatenation the scope loop appends after `scope=`: each scope
immediately followed by the `+` separator, in order. -/
def scopeConcat : List String → String
  | [] => ""
  | s :: rest => s ++ "+" ++ scopeConcat rest

theorem strContains_of_contains_middle (a m b t : String) (h : strContains m t) :
    strContains (a ++ m ++ b) t :=
  strContains_trans h ⟨a.data, b.data, rfl⟩

theorem scopeErrMsg_contains_scope (s : String) : strContains (scopeErrMsg s) s := by
  unfold strContains
  refine ⟨("Scope must be one of " ++ pyListRepr choices ++ " (found scope " ++ sq).data,
    (sq ++ ")").data, ?_⟩
  simp [scopeErrMsg, List.append_assoc]

theorem scopeErrMsg_contains_of (s c : String) (h : strContains (pyListRepr choices) c) :
    strContains (scopeErrMsg s) c := by
  refine strContains_trans h ⟨"Scope must be one of ".data,
    (" (found scope " ++ sq ++ s ++ sq ++ ")").data, ?_⟩
  simp [scopeErrMsg, List.append_assoc]

set_option maxRecDepth 8192 in
theorem pyListRepr_contains_choices : ∀ c ∈ choices, strContains (pyListRepr choices) c := by
  decide

set_option maxRecDepth 8192 in
theorem scopeConcat_choices_contains : ∀ c ∈ choices, strContains (scopeConcat choices) c := by
  decide

theorem appendScopes_invalid : ∀ (scopes : List String) (base : String),
    (∃ s ∈ scopes, s ∉ choices) →
    ∃ bad ∈ scopes, bad ∉ choices ∧
      appendScopes base scopes = .error (.valueError (scopeErrMsg bad)) := by
  intro scopes
  induction scopes with
  | nil => intro base h; simp at h
  | cons s rest ih =>
    intro base h
    by_cases hs : s ∈ choices
    · obtain ⟨x, hx, hxc⟩ := h
      have hx' : x ∈ rest := by
        cases hx with
        | head => exact absurd hs hxc
        | tail _ h2 => exact h2
      obtain ⟨bad, hb1, hb2, hb3⟩ := ih (base ++ s ++ "+") ⟨x, hx', hxc⟩
      exact ⟨bad, List.mem_cons_of_mem _ hb1, hb2, by simpa [appendScopes, hs] using hb3⟩
    · exact ⟨s, List.mem_cons_self _ _, hs, by simp [appendScopes, hs]⟩

theorem appendScopes_valid : ∀ (scopes : List String) (base : String),
    (∀ s ∈ scopes, s ∈ choices) →
    appendScopes base scopes = .ok (base ++ scopeConcat scopes) := by
  intro scopes
  induction scopes with
  | nil => intro base _; simp [appendScopes, scopeConcat]
  | cons s rest ih =>
    intro base h
    have hs : s ∈ choices := h s (List.mem_cons_self s rest)
    have hrest := ih (base ++ s ++ "+") (fun x hx => h x (List.mem_cons_of_mem _ hx))
    simp only [String.append_assoc] at hrest
    simp [appendScopes, hs, hrest, scopeConcat, String.append_assoc]

/-- C1: for every scopes list containing a value outside the enumerated set,
`get_auth_url` fails with the `ValueError` whose message names that invalid
scope and lists the allowed set, and it issues no HTTP request. -/
theorem get_auth_url_invalid_scope (api_root cid redirect : String) (scopes : List String)
    (h : ∃ s ∈ scopes, s ∉ choices) :
    ∃ bad ∈ scopes, bad ∉ choices ∧
      get_auth_url api_root cid scopes redirect = ([], .error (.valueError (scopeErrMsg bad))) ∧
      strContains (scopeErrMsg bad) bad ∧
      ∀ c ∈ choices, strContains (scopeErrMsg bad) c := by
  obtain ⟨bad, hb1, hb2, hb3⟩ := appendScopes_invalid scopes
    (api_root ++ "/oauth/authorize?response_type=code&client_id=" ++ cid ++ "&scope=") h
  have hne : scopes.isEmpty = false := by
    cases scopes with
    | nil => obtain ⟨s, hs, _⟩ := h; simp at hs
    | cons a rest => rfl
  refine ⟨bad, hb1, hb2, ?_, scopeErrMsg_contains_scope bad,
    fun c hc => scopeErrMsg_contains_of bad c (pyListRepr_contains_choices c hc)⟩
  simp [get_auth_url, hne, hb3]

theorem get_auth_url_invalid_scope_witness :
    (∃ s ∈ (["badscope"] : List String), s ∉ choices) ∧
    ∃ bad ∈ (["badscope"] : List String), bad ∉ choices ∧
      get_auth_url "https://api.vimeo.com" "abc" ["badscope"] "cb" =
        ([], .error (.valueError (scopeErrMsg bad))) ∧
      strContains (scopeErrMsg bad) bad ∧
      ∀ c ∈ choices, strContains (scopeErrMsg bad) c :=
  ⟨by decide, get_auth_url_invalid_scope "https://api.vimeo.com" "abc" "cb" ["badscope"]
    (by decide)⟩

/-- C2: with an empty scopes list, `get_auth_url` behaves exactly as if the
full enumerated set had been requested, and the returned URL contains every
one of the seven scopes. -/
theorem get_auth_url_empty_scopes (api_root cid redirect : String) :
    get_auth_url api_root cid [] redirect = get_auth_url api_root cid choices redirect ∧
    ∃ u, (get_auth_url api_root cid [] redirect).2 = .ok u ∧
      ∀ c ∈ choices, strContains u c := by
  have happ := appendScopes_valid choices
    (api_root ++ "/oauth/authorize?response_type=code&client_id=" ++ cid ++ "&scope=")
    (fun s hs => hs)
  refine ⟨rfl,
    api_root ++ "/oauth/authorize?response_type=code&client_id=" ++ cid ++ "&scope=" ++
      scopeConcat choices ++ "&redirect_uri=" ++ redirect, ?_, ?_⟩
  · simp [get_auth_url, happ]
  · intro c hc
    exact strContains_trans (scopeConcat_choices_contains c hc)
      ⟨(api_root ++ "/oauth/authorize?response_type=code&client_id=" ++ cid ++ "&scope=").data,
       ("&redirect_uri=" ++ redirect).data, by simp [List.append_assoc]⟩

/-- C3: for every non-empty list of scopes all inside the enumerated set,
`get_auth_url` returns the URL whose `scope=` segment is exactly those scopes
in order, each immediately followed by the `+` separator. -/
theorem get_auth_url_valid_scopes (api_root cid redirect : String) (scopes : List String)
    (hne : scopes ≠ []) (hval : ∀ s ∈ scopes, s ∈ choices) :
    get_auth_url api_root cid scopes redirect =
      ([], .ok (api_root ++ "/oauth/authorize?response_type=code&client_id=" ++ cid ++
        "&scope=" ++ scopeConcat scopes ++ "&redirect_uri=" ++ redirect)) := by
  have hne' : scopes.isEmpty = false := by
    cases scopes with
    | nil => exact absurd rfl hne
    | cons a rest => rfl
  have happ := appendScopes_valid scopes
    (api_root ++ "/oauth/authorize?response_type=code&client_id=" ++ cid ++ "&scope=") hval
  simp [get_auth_url, hne', happ]

theorem get_auth_url_valid_scopes_witness :
    ((["public", "edit"] : List String) ≠ [] ∧ ∀ s ∈ (["public", "edit"] : List String),
      s ∈ choices) ∧
    get_auth_url "https://api.vimeo.com" "abc" ["public", "edit"] "cb" =
      ([], .ok ("https://api.vimeo.com" ++ "/oauth/authorize?response_type=code&client_id=" ++
        "abc" ++ "&scope=" ++ scopeConcat ["public", "edit"] ++ "&redirect_uri=" ++ "cb")) :=
  ⟨by decide, get_auth_url_valid_scopes "https://api.vimeo.com" "abc" "cb" ["public", "edit"]
    (by decide) (by decide)⟩

/-- C4: the builder's output on the spec's concrete example. -/
theorem get_auth_url_concrete_example :
    (get_auth_url "https://api.vimeo.com" "abc" ["public"] "https://app.example.com/cb").2 =
      .ok ("https://api.vimeo.com/oauth/authorize?response_type=code&client_id=abc" ++
        "&scope=public+&redirect_uri=https://app.example.com/cb") := by
  decide

theorem intercalate_pair (A B : String) : String.intercalate "&" [A, B] = A ++ "&" ++ B := by
  simp [String.intercalate, String.intercalate.go]

theorem urlencode_cc (ss : List String) :
    urlencode [("grant_type", .str "client_credentials"), ("scope", .list ss)] =
      "grant_type=client_credentials&scope=" ++ quote_plus (pyListRepr ss) := by
  simp only [urlencode, List.map, pyStr]
  rw [intercalate_pair]
  simp only [← String.append_assoc]
  congr 1

/-- C5: when the HTTP collaborator reports no error and the response body is
the JSON object with the single field `access_token` bound to `t`,
`get_access_token` returns `t`. -/
theorem get_access_token_success (resp : HttpResponse)
    (auth_code cid secret redirect api_root t : String)
    (herr : resp.error = none)
    (hbody : json_loads resp.body = .ok [("access_token", t)]) :
    (get_access_token (fun _ => resp) auth_code cid secret redirect api_root).2 = .ok t := by
  simp [get_access_token, herr, hbody, dictSubscript]

theorem get_access_token_success_witness :
    (HttpResponse.mk none "\x7b\x22access_token\x22: \x22tok123\x22\x7d").error = none ∧
    json_loads (HttpResponse.mk none "\x7b\x22access_token\x22: \x22tok123\x22\x7d").body =
      .ok [("access_token", "tok123")] ∧
    (get_access_token (fun _ => HttpResponse.mk none "\x7b\x22access_token\x22: \x22tok123\x22\x7d")
      "ac" "cid" "sec" "rd" "https://api.vimeo.com").2 = .ok "tok123" :=
  ⟨rfl, by decide,
    get_access_token_success (HttpResponse.mk none "\x7b\x22access_token\x22: \x22tok123\x22\x7d")
      "ac" "cid" "sec" "rd" "https://api.vimeo.com" "tok123" rfl (by decide)⟩

/-- C6: when the HTTP collaborator reports a transport error,
`get_access_token` fails with the `ValueError` wrapping that error and
returns no token, and the outcome is independent of the response body (the
body is never parsed). -/
theorem get_access_token_transport_error (resp : HttpResponse)
    (auth_code cid secret redirect api_root e : String)
    (herr : resp.error = some e) :
    (get_access_token (fun _ => resp) auth_code cid secret redirect api_root).2 =
      .error (.valueError e) ∧
    (∀ body1 body2 : String,
      (get_access_token (fun _ => HttpResponse.mk (some e) body1)
        auth_code cid secret redirect api_root).2 =
      (get_access_token (fun _ => HttpResponse.mk (some e) body2)
        auth_code cid secret redirect api_root).2) := by
  refine ⟨by simp [get_access_token, herr], fun body1 body2 => rfl⟩

theorem get_access_token_transport_error_witness :
    (HttpResponse.mk (some "connection refused") "zzz").error = some "connection refused" ∧
    (get_access_token (fun _ => HttpResponse.mk (some "connection refused") "zzz")
      "ac" "cid" "sec" "rd" "https://api.vimeo.com").2 =
      .error (.valueError "connection refused") :=
  ⟨rfl, (get_access_token_transport_error (HttpResponse.mk (some "connection refused") "zzz")
    "ac" "cid" "sec" "rd" "https://api.vimeo.com" "connection refused" rfl).1⟩

/-- C7: `get_client_credentials` posts to `{api_root}/oauth/authorize/client`;
its body carries a `scope` entry exactly when a non-empty scopes argument was
supplied, and with scopes absent (or empty) the body is just
`grant_type=client_credentials`. -/
theorem get_client_credentials_scope_key (fetch : HttpRequest → HttpResponse)
    (client_id client_secret api_root : String) (scopes : Option (List String)) :
    ∃ req, (get_client_credentials fetch client_id client_secret scopes api_root).1 = [req] ∧
      req.url = api_root ++ "/oauth/authorize/client" ∧
      ((scopes = none ∨ scopes = some []) →
        req.body = "grant_type=client_credentials" ∧ ¬ strContains req.body "scope") ∧
      (∀ ss, scopes = some ss → ss ≠ [] →
        req.body = "grant_type=client_credentials&scope=" ++ quote_plus (pyListRepr ss) ∧
        strContains req.body "&scope=") := by
  have hplain : urlencode [("grant_type", PyVal.str "client_credentials")] =
      "grant_type=client_credentials" := by decide
  have hnoscope : ¬ strContains (urlencode [("grant_type", PyVal.str "client_credentials")])
      "scope" := by decide
  match scopes with
  | none =>
    exact ⟨_, rfl, rfl, fun _ => ⟨hplain, hnoscope⟩, fun ss h => by simp at h⟩
  | some [] =>
    refine ⟨_, rfl, rfl, fun _ => ⟨hplain, hnoscope⟩, fun ss' h h2 => ?_⟩
    rw [Option.some_inj] at h
    exact absurd h.symm h2
  | some (a :: rest) =>
    refine ⟨_, rfl, rfl, fun hfalse => ?_, fun ss' h h2 => ?_⟩
    · rcases hfalse with h | h <;> simp at h
    · rw [Option.some_inj] at h
      subst h
      constructor
      · exact urlencode_cc (a :: rest)
      · show strContains (urlencode [("grant_type", PyVal.str "client_credentials"),
          ("scope", PyVal.list (a :: rest))]) "&scope="
        rw [urlencode_cc]
        refine ⟨"grant_type=client_credentials".data,
          (quote_plus (pyListRepr (a :: rest))).data, ?_⟩
        show ("grant_type=client_credentials".data ++ "&scope=".data) ++
            (quote_plus (pyListRepr (a :: rest))).data =
          "grant_type=client_credentials&scope=".data ++
            (quote_plus (pyListRepr (a :: rest))).data
        congr 1

theorem get_client_credentials_scope_key_witness :
    ∃ req, (get_client_credentials (fun _ => HttpResponse.mk none "")
        "id" "sec" (some ["public"]) "https://api.vimeo.com").1 = [req] ∧
      req.url = "https://api.vimeo.com" ++ "/oauth/authorize/client" ∧
      (((some ["public"] : Option (List String)) = none ∨
          (some ["public"] : Option (List String)) = some []) →
        req.body = "grant_type=client_credentials" ∧ ¬ strContains req.body "scope") ∧
      (∀ ss, (some ["public"] : Option (List String)) = some ss → ss ≠ [] →
        req.body = "grant_type=client_credentials&scope=" ++ quote_plus (pyListRepr ss) ∧
        strContains req.body "&scope=") :=
  get_client_credentials_scope_key (fun _ => HttpResponse.mk none "")
    "id" "sec" "https://api.vimeo.com" (some ["public"])

/-- C8: the single outgoing request of `get_access_token`: POST to
`{api_root}/oauth/access_token`, Basic authorization from
`base64(cid:secret)`, the versioned Accept header, the form-encoded
three-field body, and certificate validation on.  The last two conjuncts pin
the base64 and form encodings down on concrete values. -/
theorem get_access_token_request (fetch : HttpRequest → HttpResponse)
    (auth_code cid secret redirect api_root : String) :
    (get_access_token fetch auth_code cid secret redirect api_root).1 =
      [HttpRequest.mk (api_root ++ "/oauth/access_token") "POST"
        [("Accept", "application/vnd.vimeo.*+json; version=3.2"),
         ("Authorization", "Basic " ++ b64encode (cid ++ ":" ++ secret))]
        (urlencode [("grant_type", .str "authorization_code"), ("code", .str auth_code),
                    ("redirect_uri", .str redirect)])
        (some true)] ∧
    b64encode ("client" ++ ":" ++ "secret") = "Y2xpZW50OnNlY3JldA==" ∧
    urlencode [("grant_type", .str "authorization_code"), ("code", .str "co de&x"),
               ("redirect_uri", .str "https://a/b?q=1")] =
      "grant_type=authorization_code&code=co+de%26x&redirect_uri=https%3A%2F%2Fa%2Fb%3Fq%3D1" :=
  ⟨rfl, by decide, by decide⟩

/-- C10: `get_client_credentials` issues its one request with no
`validate_cert` argument, unlike `get_access_token`, whose request sets
certificate validation to true. -/
theorem get_client_credentials_no_validate_cert
    (fetch fetch2 : HttpRequest → HttpResponse)
    (client_id client_secret api_root : String) (scopes : Option (List String))
    (auth_code cid secret redirect api_root2 : String) :
    ((get_client_credentials fetch client_id client_secret scopes api_root).1.map
      HttpRequest.validateCert) = [none] ∧
    ((get_access_token fetch2 auth_code cid secret redirect api_root2).1.map
      HttpRequest.validateCert) = [some true] :=
  ⟨rfl, rfl⟩

/-- C9 counterexample: the three failure kinds are *not* distinguishable as
distinct error results: an invalid scope in `get_auth_url` and a transport
error in `get_access_token` can produce the very same `ValueError` value, so
a caller seeing the error cannot tell which failure kind occurred. -/
theorem error_kinds_counterexample :
    (get_auth_url "https://api.vimeo.com" "abc" ["badscope"] "cb").2 =
      .error (.valueError (scopeErrMsg "badscope")) ∧
    (get_access_token (fun _ => HttpResponse.mk (some (scopeErrMsg "badscope")) "body")
        "ac" "cid" "sec" "rd" "https://api.vimeo.com").2 =
      .error (.valueError (scopeErrMsg "badscope")) := by
  exact ⟨by decide, rfl⟩

/-- C9 amended: every failure kind surfaces as an exception, but not as three
distinct kinds: an invalid scope raises `ValueError`, a transport error
raises `ValueError` wrapping the underlying error, an undecodable body raises
the `json` `ValueError`, and a body lacking `access_token` raises `KeyError`
— so validation, transport and JSON-decode failures share one exception
type and are separable only by message text. -/
theorem error_kinds_amended (s e : String) (hs : s ∉ choices) :
    (get_auth_url "https://api.vimeo.com" "abc" [s] "cb").2 =
      .error (.valueError (scopeErrMsg s)) ∧
    (get_access_token (fun _ => HttpResponse.mk (some e) "ignored")
        "ac" "cid" "sec" "rd" "root").2 = .error (.valueError e) ∧
    (get_access_token (fun _ => HttpResponse.mk none "not json")
        "ac" "cid" "sec" "rd" "root").2 =
      .error (.valueError "No JSON object could be decoded") ∧
    (get_access_token (fun _ => HttpResponse.mk none "\x7b\x22foo\x22: \x22bar\x22\x7d")
        "ac" "cid" "sec" "rd" "root").2 = .error (.keyError "access_token") := by
  refine ⟨?_, rfl, by decide, by decide⟩
  simp [get_auth_url, appendScopes, hs]

theorem error_kinds_amended_witness :
    ("badscope" ∉ choices) ∧
    (get_auth_url "https://api.vimeo.com" "abc" ["badscope"] "cb").2 =
      .error (.valueError (scopeErrMsg "badscope")) ∧
    (get_access_token (fun _ => HttpResponse.mk (some "boom") "ignored")
        "ac" "cid" "sec" "rd" "root").2 = .error (.valueError "boom") ∧
    (get_access_token (fun _ => HttpResponse.mk none "not json")
        "ac" "cid" "sec" "rd" "root").2 =
      .error (.valueError "No JSON object could be decoded") ∧
    (get_access_token (fun _ => HttpResponse.mk none "\x7b\x22foo\x22: \x22bar\x22\x7d")
        "ac" "cid" "sec" "rd" "root").2 = .error (.keyError "access_token") :=
  ⟨by decide, error_kinds_amended "badscope" "boom" (by decide)⟩

end VimeoAuth
